import Mathlib

/-!
Verification development for the c67-mcp documentation server.

The embedding covers the three core components of the source:
the transport client (`src/client.rs`), the result formatter
(`src/formatting.rs`) and the tool dispatcher (`src/server.rs`, with the
near-duplicate all-in-one variant in `src/handler.rs`).

The HTTP round trip itself is external I/O; it is modelled by an
`HttpOutcome` value handed to the client functions at the granularity the
Rust code matches on: a 2xx response carrying its decoded body, a non-2xx
status code, or a transport-level failure carrying its display message.
For the search endpoint the 2xx body is carried as the outcome of JSON
decoding (`response.into_json()` may fail); for the fetch endpoint the
2xx body is carried as the outcome of reading it into text
(`response.into_string()` may fail, `src/client.rs` line 219).
-/

namespace C67

instance {α β : Type} [DecidableEq α] [DecidableEq β] : DecidableEq (Except α β) :=
  fun x y =>
    match x, y with
    | .ok a, .ok b =>
        if h : a = b then isTrue (by rw [h]) else isFalse (by simp [h])
    | .error a, .error b =>
        if h : a = b then isTrue (by rw [h]) else isFalse (by simp [h])
    | .ok _, .error _ => isFalse (by simp)
    | .error _, .ok _ => isFalse (by simp)

/-- One search match, as deserialized from the upstream JSON
(`SearchResult` in `src/client.rs`).  `total_snippets` is an `i32` in the
source, modelled as `Int`; `trust_score` is an `f64`, modelled as `ℚ`
(finite values only). -/
structure SearchResult where
  id : String
  title : String
  description : String
  total_snippets : Option Int
  trust_score : Option ℚ
  versions : Option (List String)
deriving Repr, DecidableEq

/-- JSON shape of the search endpoint (`SearchResponse` in
`src/client.rs`): a list of results plus an optional error string.  No
cross-field constraint is imposed by deserialization. -/
structure SearchResponse where
  results : List SearchResult
  error : Option String
deriving Repr, DecidableEq

/-- Outcome of one blocking HTTP round trip, at the granularity
`src/client.rs` matches on: `success body` is a 2xx response with its
body, `status code` is a non-2xx HTTP status, `failure msg` is any other
transport error with its display message. -/
inductive HttpOutcome (β : Type) where
  | success (body : β)
  | status (code : Nat)
  | failure (msg : String)
deriving Repr, DecidableEq

/-- Constant `MINIMUM_TOKENS` in `src/client.rs`. -/
def MINIMUM_TOKENS : Nat := 1000

/-- Constant `DEFAULT_TOKENS` in `src/client.rs`. -/
def DEFAULT_TOKENS : Nat := 5000

/-- Constant `CONTEXT7_API_BASE_URL` in `src/client.rs`. -/
def CONTEXT7_API_BASE_URL : String := "https://context7.com/api"

/-- Function `Context7Client::search_libraries` (`src/client.rs` lines 139-158),
applied to the round-trip outcome.  A 2xx body that decodes is returned
as parsed; a 2xx body that fails to decode propagates the decode error
(`response.into_json()?`); the recognized statuses 429 and 401 and every
other failure are downgraded to an empty result list with an `error`
field. -/
def search_libraries (out : HttpOutcome (Except String SearchResponse)) :
    Except String SearchResponse :=
  match out with
  | .success (.ok search_response) => .ok search_response
  | .success (.error e) => .error e
  | .status code =>
      if code = 429 then
        .ok ⟨[], some "Rate limited due to too many requests. Please try again later."⟩
      else if code = 401 then
        .ok ⟨[], some "Unauthorized. Please check your API key."⟩
      else
        .ok ⟨[], some ("Failed to search libraries: status code " ++ toString code)⟩
  | .failure e =>
      .ok ⟨[], some ("Failed to search libraries: " ++ e)⟩

/-- The expression `library_id.strip_prefix('/').unwrap_or(library_id)`
(`src/client.rs` line 167): remove exactly one leading `/` when present. -/
def normalizeLibraryId (s : String) : String :=
  if s.data.head? = some '/' then String.mk s.data.tail else s

/-- The expression `tokens.unwrap_or(DEFAULT_TOKENS).max(MINIMUM_TOKENS)`
(`src/client.rs` line 170). -/
def resolveTokens (tokens : Option Nat) : Nat :=
  max (tokens.getD DEFAULT_TOKENS) MINIMUM_TOKENS

/-- The outbound GET request built by
`Context7Client::fetch_library_documentation` (`src/client.rs` lines
167-212): URL path from the normalized library id, `tokens` query
parameter from the clamped value, optional `topic` query parameter. -/
structure FetchRequest where
  url : String
  tokensParam : Nat
  topicParam : Option String
deriving Repr, DecidableEq

/-- Request construction inside `fetch_library_documentation`. -/
def buildFetchRequest (base_url library_id : String) (tokens : Option Nat)
    (topic : Option String) : FetchRequest :=
  { url := base_url ++ "/v1/" ++ normalizeLibraryId library_id
    tokensParam := resolveTokens tokens
    topicParam := topic }

/-- The response mapping of `fetch_library_documentation`
(`src/client.rs` lines 217-238): a 2xx body that reads as text empty or
equal to one of the two sentinel texts becomes `none`; any other 2xx
body text is returned unchanged; a 2xx body whose read fails propagates
the read error (`response.into_string()?`, line 219); the recognized
statuses 429, 404 and 401 and every other failure are downgraded to
fixed or interpolated text. -/
def fetchResponseMapping (out : HttpOutcome (Except String String)) :
    Except String (Option String) :=
  match out with
  | .success (.ok text) =>
      if text = "" ∨ text = "No content available" ∨
          text = "No context data available" then
        .ok none
      else
        .ok (some text)
  | .success (.error e) => .error e
  | .status code =>
      if code = 429 then
        .ok (some "Rate limited due to too many requests. Please try again later.")
      else if code = 404 then
        .ok (some "The library you are trying to access does not exist. Please try with a different library ID.")
      else if code = 401 then
        .ok (some "Unauthorized. Please check your API key.")
      else
        .ok (some ("Failed to fetch documentation: status code " ++ toString code))
  | .failure e =>
      .ok (some ("Failed to fetch documentation: " ++ e))

/-- One call of `Context7Client::fetch_library_documentation`: the
request it sends and the result it returns. -/
structure FetchCall where
  request : FetchRequest
  result : Except String (Option String)
deriving Repr, DecidableEq

/-- Function `Context7Client::fetch_library_documentation` (`src/client.rs` lines
161-239), with the round-trip outcome supplied as `out`. -/
def fetch_library_documentation (base_url library_id : String)
    (tokens : Option Nat) (topic : Option String)
    (out : HttpOutcome (Except String String)) : FetchCall :=
  { request := buildFetchRequest base_url library_id tokens topic
    result := fetchResponseMapping out }

/-- Renders a rational to one decimal place, an abstraction of the Rust
`format!("{:.1}", x)` on the `f64` field (only the presence of the line,
never its digits, matters in this development). -/
def formatOneDecimal (q : ℚ) : String :=
  let n : Int := round (q * 10)
  toString (n / 10) ++ "." ++ toString ((n % 10).natAbs)

/-- The `parts` vector built for one match inside `format_search_results`
(`src/formatting.rs` lines 12-37): three unconditional lines, then
`Code Snippets` unless the field is absent or the sentinel `-1`, then
`Trust Score` unless the field is absent or negative, then `Versions`
unless the field is absent or empty. -/
def matchParts (r : SearchResult) : List String :=
  ["- Title: " ++ r.title,
   "- Context7-compatible library ID: " ++ r.id,
   "- Description: " ++ r.description]
  ++ (match r.total_snippets with
      | some snippets =>
          if snippets ≠ -1 then ["- Code Snippets: " ++ toString snippets] else []
      | none => [])
  ++ (match r.trust_score with
      | some trust_score =>
          if trust_score ≥ 0 then ["- Trust Score: " ++ formatOneDecimal trust_score]
          else []
      | none => [])
  ++ (match r.versions with
      | some versions =>
          if versions ≠ [] then ["- Versions: " ++ String.intercalate ", " versions]
          else []
      | none => [])

/-- Function `format_search_results` (`src/formatting.rs`): fixed text on an empty
result list, otherwise the per-match blocks joined by the separator
line. -/
def format_search_results (response : SearchResponse) : String :=
  if response.results.isEmpty then
    "No documentation libraries found matching your query."
  else
    String.intercalate "\n----------\n"
      (response.results.map (fun r => String.intercalate "\n" (matchParts r)))

/-- A JSON value as the dispatcher sees a tool-call argument
(`serde_json::Value`).  Numbers are split the way `serde_json` stores
them: a non-negative integer (as `u64`), a negative integer (as `i64`),
or a float; the value of a float is irrelevant to the dispatcher, which only
ever applies `as_str` and `as_u64`. -/
inductive JValue where
  | str (s : String)
  | intNonneg (n : Nat)
  | intNeg (n : Int)
  | fracNum
  | nullV
  | boolV (b : Bool)
  | arrV
  | objV
deriving Repr, DecidableEq

/-- Method `Value::as_str`: `some` exactly on strings. -/
def JValue.asStr : JValue → Option String
  | .str s => some s
  | _ => none

/-- Method `Value::as_u64`: `some` exactly on non-negative integers (negative,
fractional and non-numeric values give `none`). -/
def JValue.asU64 : JValue → Option Nat
  | .intNonneg n => some n
  | _ => none

/-- The tool-call request (`CallToolRequestParam`): the tool name and the
optional argument object, modelled as an association list. -/
structure CallToolRequestParam where
  name : String
  arguments : Option (List (String × JValue))
deriving Repr, DecidableEq

/-- The expression `request.arguments.as_ref().and_then(|args| args.get(key))`. -/
def getArg (args : Option (List (String × JValue))) (key : String) :
    Option JValue :=
  args.bind (fun l => (l.find? (fun p => p.1 = key)).map Prod.snd)

/-- A protocol-level rejection (`ErrorData::invalid_request`). -/
structure ErrorData where
  message : String
deriving Repr, DecidableEq

/-- Observable behaviour of the dispatcher on one tool call: the
protocol-level result (an error, or a success envelope carried as its
list of text content items) together with whether the upstream HTTP call
was performed. -/
structure DispatchOutcome where
  result : Except ErrorData (List String)
  networkCalled : Bool
deriving Repr, DecidableEq

/-- The upstream round-trip outcomes available to one dispatched call
(at most one of the two is consumed). -/
structure Upstream where
  searchOutcome : HttpOutcome (Except String SearchResponse)
  fetchOutcome : HttpOutcome (Except String String)
deriving Repr, DecidableEq

/-- The tokens coercion in the dispatcher (`src/server.rs` lines
196-201): `Value::as_u64` followed by the `as u32` truncating cast. -/
def dispatchTokens (args : Option (List (String × JValue))) : Option Nat :=
  ((getArg args "tokens").bind JValue.asU64).map (fun t => t % 2 ^ 32)

/-- The fixed preamble of a successful `resolve-library-id` response in
`src/server.rs` line 161 (everything of the `format!` string before the
trailing `{}`). -/
def resolvePreambleServer : String :=
  "Available Libraries (top matches):\n\nEach result includes:\n- Library ID: Context7-compatible identifier (format: /org/project)\n- Name: Library or package name\n- Description: Short summary\n- Code Snippets: Number of available code examples\n- Trust Score: Authority indicator\n- Versions: List of versions if available. Use one of those versions if the user provides a version in their query. The format of the version is /org/project/version.\n\nFor best results, select libraries based on name match, trust score, snippet coverage, and relevance to your use case.\n\n----------\n\n"

/-- The fixed preamble of a successful `resolve-library-id` response in
`src/handler.rs` line 439. -/
def resolvePreambleHandler : String :=
  "Available Libraries (top matches):\n\nEach result includes:\n- Library ID: Context7-compatible identifier (format: /org/project)\n- Name: Library or package name\n- Description: Short summary\n- Code Snippets: Number of available code examples\n- Trust Score: Authority indicator\n- Versions: List of versions if available. Use one of those versions if and only if the user explicitly provides a version in their query.\n\nFor best results, select libraries based on name match, trust score, snippet coverage, and relevance to your use case.\n\n----------\n\n"

/-- The fixed `get-library-docs` no-content message (identical in
`src/server.rs` and `src/handler.rs`). -/
def noDocsText : String :=
  "Documentation not found or not finalized for this library. This might have happened because you used an invalid Context7-compatible library ID. To get a valid Context7-compatible library ID, use the \x27resolve-library-id\x27 with the package name you wish to retrieve documentation for."

/-- Method `Context7Tool::call_tool` of `src/server.rs` (lines 135-226): match
on the tool name, extract arguments via `as_str` (rejecting when the
required one is missing or not a string), perform the one upstream call,
wrap every domain outcome in a success envelope with exactly one text
item. -/
def callToolServer (req : CallToolRequestParam) (env : Upstream) :
    DispatchOutcome :=
  if req.name = "resolve-library-id" then
    match (getArg req.arguments "libraryName").bind JValue.asStr with
    | none => ⟨.error ⟨"Missing libraryName parameter"⟩, false⟩
    | some _library_name =>
        match search_libraries env.searchOutcome with
        | .ok response =>
            match response.error with
            | some err => ⟨.ok [err], true⟩
            | none =>
                ⟨.ok [resolvePreambleServer ++ format_search_results response],
                  true⟩
        | .error e =>
            ⟨.ok ["Failed to retrieve library documentation data from Context7: "
                   ++ e], true⟩
  else if req.name = "get-library-docs" then
    match (getArg req.arguments "context7CompatibleLibraryID").bind JValue.asStr with
    | none => ⟨.error ⟨"Missing context7CompatibleLibraryID parameter"⟩, false⟩
    | some library_id =>
        let topic := (getArg req.arguments "topic").bind JValue.asStr
        let tokens := dispatchTokens req.arguments
        match (fetch_library_documentation CONTEXT7_API_BASE_URL library_id
                tokens topic env.fetchOutcome).result with
        | .ok (some documentation) => ⟨.ok [documentation], true⟩
        | .ok none => ⟨.ok [noDocsText], true⟩
        | .error e =>
            ⟨.ok ["Error fetching library documentation: " ++ e], true⟩
  else
    ⟨.error ⟨"Unknown tool: " ++ req.name⟩, false⟩

/-- Method `Context7Tool::call_tool` of `src/handler.rs` (lines 411-513); the
`debug!` / `error!` logging statements are side-effect-free diagnostics
and are not modelled.  The body differs from the `src/server.rs` variant
only in its resolve-success preamble literal. -/
def callToolHandler (req : CallToolRequestParam) (env : Upstream) :
    DispatchOutcome :=
  if req.name = "resolve-library-id" then
    match (getArg req.arguments "libraryName").bind JValue.asStr with
    | none => ⟨.error ⟨"Missing libraryName parameter"⟩, false⟩
    | some _library_name =>
        match search_libraries env.searchOutcome with
        | .ok response =>
            match response.error with
            | some err => ⟨.ok [err], true⟩
            | none =>
                ⟨.ok [resolvePreambleHandler ++ format_search_results response],
                  true⟩
        | .error e =>
            ⟨.ok ["Failed to retrieve library documentation data from Context7: "
                   ++ e], true⟩
  else if req.name = "get-library-docs" then
    match (getArg req.arguments "context7CompatibleLibraryID").bind JValue.asStr with
    | none => ⟨.error ⟨"Missing context7CompatibleLibraryID parameter"⟩, false⟩
    | some library_id =>
        let topic := (getArg req.arguments "topic").bind JValue.asStr
        let tokens := dispatchTokens req.arguments
        match (fetch_library_documentation CONTEXT7_API_BASE_URL library_id
                tokens topic env.fetchOutcome).result with
        | .ok (some documentation) => ⟨.ok [documentation], true⟩
        | .ok none => ⟨.ok [noDocsText], true⟩
        | .error e =>
            ⟨.ok ["Error fetching library documentation: " ++ e], true⟩
  else
    ⟨.error ⟨"Unknown tool: " ++ req.name⟩, false⟩

/-- Holds (as `true`) when `pattern` occurs as a contiguous substring of `s`. -/
def strContains (s pattern : String) : Bool :=
  (List.range (s.data.length + 1)).any
    (fun i => pattern.data.isPrefixOf (s.data.drop i))

end C67

namespace C67

set_option maxRecDepth 10000

theorem append_ne_of_ne_at (p q a b : List Char) (i : Nat)
    (hp : i < p.length) (hq : i < q.length)
    (hne : p.get ⟨i, hp⟩ ≠ q.get ⟨i, hq⟩) : p ++ a ≠ q ++ b := by
  intro h
  apply hne
  have h1 : (p ++ a)[i]? = (q ++ b)[i]? := by rw [h]
  rw [List.getElem?_append_left hp, List.getElem?_append_left hq] at h1
  rw [List.getElem?_eq_getElem hp, List.getElem?_eq_getElem hq] at h1
  simpa using h1

theorem str_append_ne (p q a b : String) (i : Nat)
    (hp : i < p.data.length) (hq : i < q.data.length)
    (hne : p.data.get ⟨i, hp⟩ ≠ q.data.get ⟨i, hq⟩) : p ++ a ≠ q ++ b :=
  fun h =>
    append_ne_of_ne_at p.data q.data a.data b.data i hp hq hne
      (by simpa [String.data_append] using congrArg String.data h)

/-- C4: the recognized HTTP status codes map to the specified texts:
429 on search gives empty matches and an error containing "Rate limited",
401 on search gives the exact unauthorized text, 429 on fetch gives
`some` text containing "Rate limited" (not a no-content result), and 404
on fetch gives `some` text containing "does not exist". -/
theorem c4_status_code_texts :
    (∃ msg, search_libraries (.status 429) = .ok ⟨[], some msg⟩ ∧
        strContains msg "Rate limited" = true) ∧
    search_libraries (.status 401) =
      .ok ⟨[], some "Unauthorized. Please check your API key."⟩ ∧
    (∀ base lib tok top, ∃ t,
        (fetch_library_documentation base lib tok top (.status 429)).result =
          .ok (some t) ∧ strContains t "Rate limited" = true) ∧
    (∀ base lib tok top, ∃ t,
        (fetch_library_documentation base lib tok top (.status 404)).result =
          .ok (some t) ∧ strContains t "does not exist" = true) := by
  refine ⟨⟨_, rfl, by decide⟩, rfl, fun base lib tok top => ⟨_, rfl, by decide⟩,
    fun base lib tok top => ⟨_, rfl, by decide⟩⟩

/-- C5: a 2xx fetch body that is empty or exactly one of the two sentinel
texts yields `none`; any other 2xx body is returned unchanged as `some`. -/
theorem c5_fetch_sentinel_bodies (base lib : String) (tok : Option Nat)
    (top : Option String) (body : String) :
    ((body = "" ∨ body = "No content available" ∨
        body = "No context data available") →
      (fetch_library_documentation base lib tok top
          (.success (.ok body))).result = .ok none) ∧
    ((body ≠ "" ∧ body ≠ "No content available" ∧
        body ≠ "No context data available") →
      (fetch_library_documentation base lib tok top
          (.success (.ok body))).result = .ok (some body)) := by
  constructor
  · intro h
    simp [fetch_library_documentation, fetchResponseMapping, h]
  · rintro ⟨h1, h2, h3⟩
    simp [fetch_library_documentation, fetchResponseMapping, h1, h2, h3]

theorem c5_fetch_sentinel_bodies_witness :
    (("No content available" : String) = "" ∨
        ("No content available" : String) = "No content available" ∨
        ("No content available" : String) = "No context data available") ∧
    (fetch_library_documentation "b" "l" none none
        (.success (.ok "No content available"))).result = .ok none :=
  ⟨Or.inr (Or.inl rfl),
    (c5_fetch_sentinel_bodies "b" "l" none none "No content available").1
      (Or.inr (Or.inl rfl))⟩

/-- C6: the tokens value sent upstream is 5000 when the argument is
absent and `max t 1000` when `some t` is given — `some 100` becomes 1000,
`some 7000` stays 7000 — and the value is never clamped downward. -/
theorem c6_tokens_clamping :
    (∀ base lib top out,
        (fetch_library_documentation base lib none top out).request.tokensParam
          = 5000) ∧
    (∀ base lib top out t,
        (fetch_library_documentation base lib (some t) top out).request.tokensParam
          = max t 1000) ∧
    (∀ t, t ≤ resolveTokens (some t)) ∧
    resolveTokens (some 100) = 1000 ∧ resolveTokens (some 7000) = 7000 := by
  refine ⟨fun base lib top out => rfl, fun base lib top out t => rfl,
    fun t => ?_, rfl, rfl⟩
  exact le_max_left t 1000

/-- C7: the URL path uses the library id with exactly one leading slash
removed when one is present and unchanged otherwise; no second strip is
applied ("//a/b" keeps its second slash). -/
theorem c7_library_id_normalization :
    (∀ base lib tok top out,
        (fetch_library_documentation base lib tok top out).request.url =
          base ++ "/v1/" ++ normalizeLibraryId lib) ∧
    (∀ s, normalizeLibraryId ("/" ++ s) = s) ∧
    (∀ s, s.data.head? ≠ some '/' → normalizeLibraryId s = s) ∧
    normalizeLibraryId "/a/b" = "a/b" ∧ normalizeLibraryId "a/b" = "a/b" ∧
    normalizeLibraryId "//a/b" = "/a/b" := by
  refine ⟨fun base lib tok top out => rfl, fun s => ?_, fun s h => ?_,
    by decide, by decide, by decide⟩
  · simp [normalizeLibraryId, String.data_append]
  · simp [normalizeLibraryId, h]

theorem c7_library_id_normalization_witness :
    ("a/b" : String).data.head? ≠ some '/' ∧ normalizeLibraryId "a/b" = "a/b" :=
  ⟨by decide, c7_library_id_normalization.2.2.1 "a/b" (by decide)⟩

/-- A 2xx fetch response whose body fails to read into text makes
`fetch_library_documentation` return a hard failure
(`response.into_string()?`, `src/client.rs` line 219). -/
theorem c2_fetch_hard_failure_counterexample :
    (fetch_library_documentation "b" "l" none none
        (.success (.error "connection reset"))).result =
      .error "connection reset" :=
  rfl

/-- C2 (amended): fetch returns `Ok` (a text or `none`) for every
round-trip outcome except a 2xx response whose body fails to read into
text, in which case the read error propagates as a hard failure
(`response.into_string()?`, `src/client.rs` line 219); search returns a
hard failure exactly when a 2xx body fails to decode as the search JSON
shape, and `Ok` with a soft error field for every other failure. -/
theorem c2_failure_asymmetry_amended :
    (∀ base lib tok top out e,
        (fetch_library_documentation base lib tok top out).result = .error e ↔
          out = .success (.error e)) ∧
    (∀ base lib tok top (out : HttpOutcome (Except String String)),
        (∀ e, out ≠ .success (.error e)) →
        ∃ v, (fetch_library_documentation base lib tok top out).result = .ok v) ∧
    (∀ out, (∃ e, search_libraries out = .error e) ↔
        (∃ e, out = .success (.error e))) ∧
    (∀ out : HttpOutcome (Except String SearchResponse),
        (∀ pr, out ≠ .success pr) →
        ∃ r, search_libraries out = .ok r ∧ r.error.isSome = true) := by
  refine ⟨fun base lib tok top out e => ?_, fun base lib tok top out h => ?_,
    fun out => ?_, fun out h => ?_⟩
  · show fetchResponseMapping out = .error e ↔ _
    cases out with
    | success pr =>
        cases pr with
        | ok text =>
            simp only [fetchResponseMapping]
            split <;> simp
        | error e2 => simp [fetchResponseMapping]
    | status code =>
        simp only [fetchResponseMapping]
        split_ifs <;> simp
    | failure msg => simp [fetchResponseMapping]
  · show ∃ v, fetchResponseMapping out = .ok v
    cases out with
    | success pr =>
        cases pr with
        | ok text =>
            simp only [fetchResponseMapping]
            split
            · exact ⟨_, rfl⟩
            · exact ⟨_, rfl⟩
        | error e2 => exact absurd rfl (h e2)
    | status code =>
        simp only [fetchResponseMapping]
        split_ifs <;> exact ⟨_, rfl⟩
    | failure msg => exact ⟨_, rfl⟩
  · constructor
    · rintro ⟨e, he⟩
      cases out with
      | success pr =>
          cases pr with
          | ok r => simp [search_libraries] at he
          | error e2 => exact ⟨e2, rfl⟩
      | status code =>
          simp only [search_libraries] at he
          split_ifs at he
      | failure msg => simp [search_libraries] at he
    · rintro ⟨e, rfl⟩
      exact ⟨e, rfl⟩
  · cases out with
    | success pr => exact absurd rfl (h pr)
    | status code =>
        simp only [search_libraries]
        split_ifs <;> exact ⟨_, rfl, rfl⟩
    | failure msg => exact ⟨_, rfl, rfl⟩

theorem c2_failure_asymmetry_amended_witness :
    (∃ v, (fetch_library_documentation "b" "l" none none
        (.status 429)).result = .ok v) ∧
    ∃ r, search_libraries (.failure "boom") = .ok r ∧ r.error.isSome = true :=
  ⟨c2_failure_asymmetry_amended.2.1 "b" "l" none none (.status 429)
      (fun _e h => nomatch h),
    c2_failure_asymmetry_amended.2.2.2 (.failure "boom") (fun _pr h => nomatch h)⟩

/-- A syntactically valid upstream search body whose `error` is set while
`results` is non-empty: deserialization imposes no cross-field
constraint, and `search_libraries` returns the parsed value unchanged. -/
def inconsistentSearchResponse : SearchResponse :=
  ⟨[⟨"/org/proj", "Title", "Desc", none, none, none⟩], some "upstream error"⟩

theorem c3_invariant_counterexample :
    search_libraries (.success (.ok inconsistentSearchResponse)) =
      .ok inconsistentSearchResponse ∧
    inconsistentSearchResponse.error.isSome = true ∧
    inconsistentSearchResponse.results ≠ [] :=
  ⟨rfl, rfl, by simp [inconsistentSearchResponse]⟩

/-- C3 (amended): every outcome built by the error branches of
`search_libraries` (non-2xx statuses and transport failures) satisfies
"`error` set implies empty `results`"; an outcome decoded from a 2xx body
is returned exactly as parsed and may violate the invariant. -/
theorem c3_error_implies_empty_or_parsed
    (out : HttpOutcome (Except String SearchResponse)) (r : SearchResponse)
    (h : search_libraries out = .ok r) (he : r.error.isSome = true) :
    r.results = [] ∨ out = .success (.ok r) := by
  cases out with
  | success pr =>
      cases pr with
      | ok resp =>
          simp only [search_libraries] at h
          cases h
          exact Or.inr rfl
      | error e => simp [search_libraries] at h
  | status code =>
      simp only [search_libraries] at h
      split_ifs at h <;> (cases h; exact Or.inl rfl)
  | failure msg =>
      simp only [search_libraries] at h
      cases h
      exact Or.inl rfl

theorem c3_error_implies_empty_or_parsed_witness :
    ((⟨[], some "Rate limited due to too many requests. Please try again later."⟩ :
        SearchResponse).results = [] ∨
      (HttpOutcome.status 429 : HttpOutcome (Except String SearchResponse)) =
        .success (.ok ⟨[], some "Rate limited due to too many requests. Please try again later."⟩)) :=
  c3_error_implies_empty_or_parsed (.status 429)
    ⟨[], some "Rate limited due to too many requests. Please try again later."⟩
    rfl rfl

/-- C10: the dispatcher coerces the `tokens` argument by reading it as an
unsigned 64-bit integer and truncating to 32 bits: a negative, fractional
or non-numeric value is silently treated as absent (so the client default
of 5000 applies, with no rejection), and an integer `v` is passed as
`v % 2^32` — e.g. `2^32` becomes `0`, which the client clamps up to
`1000`. -/
theorem c10_tokens_coercion :
    (∀ args s, getArg args "tokens" = some (.str s) →
        dispatchTokens args = none) ∧
    (∀ args n, getArg args "tokens" = some (.intNeg n) →
        dispatchTokens args = none) ∧
    (∀ args, getArg args "tokens" = some .fracNum →
        dispatchTokens args = none) ∧
    (∀ args, getArg args "tokens" = none → dispatchTokens args = none) ∧
    (∀ args n, getArg args "tokens" = some (.intNonneg n) →
        dispatchTokens args = some (n % 2 ^ 32)) ∧
    resolveTokens none = 5000 ∧
    ((2 ^ 32 : Nat) % 2 ^ 32 = 0 ∧ resolveTokens (some 0) = 1000) ∧
    (∀ req env lib, req.name = "get-library-docs" →
        (getArg req.arguments "context7CompatibleLibraryID").bind JValue.asStr
          = some lib →
        ∃ ts, (callToolServer req env).result = .ok ts) := by
  refine ⟨fun args s h => by simp [dispatchTokens, h, JValue.asU64],
    fun args n h => by simp [dispatchTokens, h, JValue.asU64],
    fun args h => by simp [dispatchTokens, h, JValue.asU64],
    fun args h => by simp [dispatchTokens, h],
    fun args n h => by simp [dispatchTokens, h, JValue.asU64],
    rfl, ⟨by decide, rfl⟩, fun req env lib hname harg => ?_⟩
  simp only [callToolServer, hname, harg, if_true, if_false]
  rcases hr : (fetch_library_documentation CONTEXT7_API_BASE_URL lib
      (dispatchTokens req.arguments)
      ((getArg req.arguments "topic").bind JValue.asStr)
      env.fetchOutcome).result with e | ov
  · exact ⟨["Error fetching library documentation: " ++ e], by simp [hr]⟩
  · cases ov with
    | none => exact ⟨[noDocsText], by simp [hr]⟩
    | some d => exact ⟨[d], by simp [hr]⟩

theorem c10_tokens_coercion_witness :
    dispatchTokens (some [("tokens", JValue.intNonneg (2 ^ 32))]) =
      some (2 ^ 32 % 2 ^ 32) ∧
    ∃ ts, (callToolServer
        ⟨"get-library-docs",
          some [("context7CompatibleLibraryID", JValue.str "/a/b")]⟩
        ⟨.status 0, .status 404⟩).result = .ok ts :=
  ⟨c10_tokens_coercion.2.2.2.2.1 _ _ (by decide),
    c10_tokens_coercion.2.2.2.2.2.2.2 _ _ "/a/b" rfl (by decide)⟩

/-- C1: the dispatcher returns a protocol-level error if and only if the
call is malformed (the required argument is missing or not a string, or
the tool name is unknown); a malformed call performs no upstream call;
every well-formed call returns a success envelope containing exactly one
text content item, never a protocol-level error for a domain failure. -/
theorem c1_dispatcher_error_iff_malformed (req : CallToolRequestParam)
    (env : Upstream) :
    ((∃ d, (callToolServer req env).result = .error d) ↔
      ((req.name ≠ "resolve-library-id" ∧ req.name ≠ "get-library-docs") ∨
       (req.name = "resolve-library-id" ∧
         (getArg req.arguments "libraryName").bind JValue.asStr = none) ∨
       (req.name = "get-library-docs" ∧
         (getArg req.arguments "context7CompatibleLibraryID").bind JValue.asStr
           = none))) ∧
    ((∃ d, (callToolServer req env).result = .error d) →
      (callToolServer req env).networkCalled = false) ∧
    (∀ ts, (callToolServer req env).result = .ok ts → ∃ t, ts = [t]) := by
  by_cases h1 : req.name = "resolve-library-id"
  · rcases harg : (getArg req.arguments "libraryName").bind JValue.asStr with _ | v
    · simp [callToolServer, h1, harg]
    · rcases hs : search_libraries env.searchOutcome with e | resp
      · simp [callToolServer, h1, harg, hs]
      · rcases hresp : resp.error with _ | err
        · simp [callToolServer, h1, harg, hs, hresp]
        · simp [callToolServer, h1, harg, hs, hresp]
  · by_cases h2 : req.name = "get-library-docs"
    · rcases harg : (getArg req.arguments "context7CompatibleLibraryID").bind
          JValue.asStr with _ | lib
      · simp [callToolServer, h1, h2, harg]
      · rcases hr : (fetch_library_documentation CONTEXT7_API_BASE_URL lib
            (dispatchTokens req.arguments)
            ((getArg req.arguments "topic").bind JValue.asStr)
            env.fetchOutcome).result with e | ov
        · simp [callToolServer, h1, h2, harg, hr]
        · rcases ov with _ | d
          · simp [callToolServer, h1, h2, harg, hr]
          · simp [callToolServer, h1, h2, harg, hr]
    · simp [callToolServer, h1, h2]

theorem c1_dispatcher_error_iff_malformed_witness :
    (callToolServer ⟨"bogus", none⟩ ⟨.status 0, .status 0⟩).networkCalled
      = false :=
  (c1_dispatcher_error_iff_malformed ⟨"bogus", none⟩ ⟨.status 0, .status 0⟩).2.1
    ⟨⟨"Unknown tool: " ++ "bogus"⟩, by decide⟩

/-- C9 (amended): the two `call_tool` variants (`src/handler.rs` and
`src/server.rs`) produce identical results for every identical input and
upstream outcome except on the successful `resolve-library-id` branch,
where both wrap the same formatted result text but in different fixed
preambles (the Versions guidance sentence differs). -/
theorem c9_variants_agree_except_preamble (req : CallToolRequestParam)
    (env : Upstream) :
    callToolHandler req env = callToolServer req env ∨
    ∃ rt, callToolServer req env =
        ⟨.ok [resolvePreambleServer ++ rt], true⟩ ∧
      callToolHandler req env = ⟨.ok [resolvePreambleHandler ++ rt], true⟩ := by
  by_cases h1 : req.name = "resolve-library-id"
  · rcases harg : (getArg req.arguments "libraryName").bind JValue.asStr with _ | v
    · left; simp [callToolServer, callToolHandler, h1, harg]
    · rcases hs : search_libraries env.searchOutcome with e | resp
      · left; simp [callToolServer, callToolHandler, h1, harg, hs]
      · rcases hresp : resp.error with _ | err
        · right
          exact ⟨format_search_results resp,
            by simp [callToolServer, h1, harg, hs, hresp],
            by simp [callToolHandler, h1, harg, hs, hresp]⟩
        · left; simp [callToolServer, callToolHandler, h1, harg, hs, hresp]
  · left
    by_cases h2 : req.name = "get-library-docs"
    · simp [callToolServer, callToolHandler, h1, h2]
    · simp [callToolServer, callToolHandler, h1, h2]

/-- A well-formed `resolve-library-id` call whose upstream search returns
an empty, error-free result list. -/
def resolveReqEx : CallToolRequestParam :=
  ⟨"resolve-library-id", some [("libraryName", JValue.str "nix")]⟩

/-- An upstream environment answering the search with a parsed empty
response. -/
def envEx : Upstream := ⟨.success (.ok ⟨[], none⟩), .status 0⟩

theorem c9_variants_counterexample :
    callToolHandler resolveReqEx envEx ≠ callToolServer resolveReqEx envEx := by
  decide

theorem mem_matchParts_iff (r : SearchResult) (x : String) :
    x ∈ matchParts r ↔
      x = "- Title: " ++ r.title ∨
      x = "- Context7-compatible library ID: " ++ r.id ∨
      x = "- Description: " ++ r.description ∨
      (∃ n, r.total_snippets = some n ∧ n ≠ -1 ∧
        x = "- Code Snippets: " ++ toString n) ∨
      (∃ t, r.trust_score = some t ∧ 0 ≤ t ∧
        x = "- Trust Score: " ++ formatOneDecimal t) ∨
      (∃ vs, r.versions = some vs ∧ vs ≠ [] ∧
        x = "- Versions: " ++ String.intercalate ", " vs) := by
  obtain ⟨id, title, desc, snip, trust, vers⟩ := r
  rcases snip with _ | n <;> rcases trust with _ | t <;> rcases vers with _ | vs <;>
    simp only [matchParts] <;> (try split_ifs) <;>
    simp_all [List.mem_append, ← not_lt]

/-- C8: in the formatter, a match with `total_snippets = some (-1)` never
renders a Code Snippets line and a match with a negative trust score
never renders a Trust Score line, while every other field present in the
match (versions when non-empty) renders its line in the block of that
match. -/
theorem c8_sentinel_fields (response : SearchResponse) (r : SearchResult)
    (_hr : r ∈ response.results) :
    (r.total_snippets = some (-1) →
      ∀ s, ("- Code Snippets: " ++ s) ∉ matchParts r) ∧
    (∀ x, r.trust_score = some x → x < 0 →
      ∀ s, ("- Trust Score: " ++ s) ∉ matchParts r) ∧
    ("- Title: " ++ r.title) ∈ matchParts r ∧
    ("- Context7-compatible library ID: " ++ r.id) ∈ matchParts r ∧
    ("- Description: " ++ r.description) ∈ matchParts r ∧
    (∀ n, r.total_snippets = some n → n ≠ -1 →
      ("- Code Snippets: " ++ toString n) ∈ matchParts r) ∧
    (∀ x, r.trust_score = some x → 0 ≤ x →
      ("- Trust Score: " ++ formatOneDecimal x) ∈ matchParts r) ∧
    (∀ vs, r.versions = some vs → vs ≠ [] →
      ("- Versions: " ++ String.intercalate ", " vs) ∈ matchParts r) := by
  refine ⟨?_, ?_, ?_, ?_, ?_, ?_, ?_, ?_⟩
  · intro hsnip s hmem
    rcases (mem_matchParts_iff r _).mp hmem with h | h | h | ⟨n, hn, hne, hx⟩ |
      ⟨t, ht, hge, hx⟩ | ⟨vs, hvs, hne2, hx⟩
    · exact str_append_ne "- Code Snippets: " "- Title: " s r.title 2
        (by decide) (by decide) (by decide) h
    · exact str_append_ne "- Code Snippets: " "- Context7-compatible library ID: "
        s r.id 4 (by decide) (by decide) (by decide) h
    · exact str_append_ne "- Code Snippets: " "- Description: " s r.description 2
        (by decide) (by decide) (by decide) h
    · rw [hsnip] at hn
      cases hn
      exact hne rfl
    · exact str_append_ne "- Code Snippets: " "- Trust Score: " s
        (formatOneDecimal t) 2 (by decide) (by decide) (by decide) hx
    · exact str_append_ne "- Code Snippets: " "- Versions: " s
        (String.intercalate ", " vs) 2 (by decide) (by decide) (by decide) hx
  · intro x htrust hneg s hmem
    rcases (mem_matchParts_iff r _).mp hmem with h | h | h | ⟨n, hn, hne, hx⟩ |
      ⟨t, ht, hge, hx⟩ | ⟨vs, hvs, hne2, hx⟩
    · exact str_append_ne "- Trust Score: " "- Title: " s r.title 3
        (by decide) (by decide) (by decide) h
    · exact str_append_ne "- Trust Score: " "- Context7-compatible library ID: "
        s r.id 2 (by decide) (by decide) (by decide) h
    · exact str_append_ne "- Trust Score: " "- Description: " s r.description 2
        (by decide) (by decide) (by decide) h
    · exact str_append_ne "- Trust Score: " "- Code Snippets: " s (toString n) 2
        (by decide) (by decide) (by decide) hx
    · rw [htrust] at ht
      cases ht
      exact absurd hge (not_le.mpr hneg)
    · exact str_append_ne "- Trust Score: " "- Versions: " s
        (String.intercalate ", " vs) 2 (by decide) (by decide) (by decide) hx
  · exact (mem_matchParts_iff r _).mpr (Or.inl rfl)
  · exact (mem_matchParts_iff r _).mpr (Or.inr (Or.inl rfl))
  · exact (mem_matchParts_iff r _).mpr (Or.inr (Or.inr (Or.inl rfl)))
  · intro n hn hne
    exact (mem_matchParts_iff r _).mpr
      (Or.inr (Or.inr (Or.inr (Or.inl ⟨n, hn, hne, rfl⟩))))
  · intro x hx hge
    exact (mem_matchParts_iff r _).mpr
      (Or.inr (Or.inr (Or.inr (Or.inr (Or.inl ⟨x, hx, hge, rfl⟩)))))
  · intro vs hvs hne
    exact (mem_matchParts_iff r _).mpr
      (Or.inr (Or.inr (Or.inr (Or.inr (Or.inr ⟨vs, hvs, hne, rfl⟩)))))

/-- A concrete match carrying the `-1` snippet sentinel. -/
def sentinelResultEx : SearchResult :=
  ⟨"/nixos/nix", "Nix", "Docs", some (-1), none, none⟩

theorem c8_sentinel_fields_witness :
    sentinelResultEx.total_snippets = some (-1) ∧
    ("- Code Snippets: " ++ "5") ∉ matchParts sentinelResultEx :=
  ⟨rfl,
    (c8_sentinel_fields ⟨[sentinelResultEx], none⟩ sentinelResultEx
      (by simp)).1 rfl "5"⟩

end C67
